import Mathlib

/-!
Verification of the CARGOS SDK record codec, validation gate, token
encryption wrapper and batch chunker.

The TypeScript source is embedded shallowly:
* JavaScript strings become lists of characters (`Str`); JS `String$length`,
  `substring`, `padStart`, `padEnd` become the corresponding list operations,
  so widths are measured in characters.
* String enums (`PaymentType`, `VehicleType`, `DocumentType`) become inductive
  types together with the character code each member carries in the source.
* `Date` becomes a record of the civil calendar components the formatter reads
  (`getDate`, `getMonth`, `getFullYear`, `getHours`, `getMinutes`).
* Fallible operations (`encryptAES`) return `Except`.
-/

namespace Cargos

/-- JavaScript strings, modelled as lists of characters. -/
abbrev Str := List Char

/-- Coerce a Lean string literal to the character-list model. -/
def str (s : String) : Str := s.toList

/-- JavaScript `s.padEnd(target, fill)` with a one-character fill string:
returns `s` unchanged when it is already at least `target` long, otherwise
appends copies of `fill` up to exactly `target` characters. -/
def jsPadEnd (s : Str) (target : Nat) (fill : Char) : Str :=
  if target ≤ s.length then s else s ++ List.replicate (target - s.length) fill

/-- JavaScript `s.padStart(target, fill)` with a one-character fill string. -/
def jsPadStart (s : Str) (target : Nat) (fill : Char) : Str :=
  if target ≤ s.length then s else List.replicate (target - s.length) fill ++ s

/-- Decimal digit character for a value below ten. -/
def digitChar (d : Nat) : Char := Char.ofNat (48 + d)

/-- Fuel-driven worker for decimal rendering; the fuel is structurally
consumed so that the kernel can evaluate it.  With fuel above `n` it computes
the decimal digits of `n`, most significant first. -/
def natDigitsGo (fuel : Nat) (n : Nat) : Str :=
  match fuel with
  | 0 => []
  | fuel + 1 =>
    if n < 10 then [digitChar n]
    else natDigitsGo fuel (n / 10) ++ [digitChar (n % 10)]

/-- JavaScript `String(value)` for a non-negative integer: decimal digits,
most significant first (`natDigits 0 = "0"`). -/
def natDigits (n : Nat) : Str := natDigitsGo (n + 1) n

/-- Source `padString(value, length, fillChar = ' ')`: truncate to `len`
characters when too long, otherwise right-pad with `fillChar`. -/
def padString (value : Str) (len : Nat) (fillChar : Char) : Str :=
  if value.length > len then value.take len
  else jsPadEnd value len fillChar

/-- Source `padNumber(value, length)`: `String(value).padStart(length, "0")`. -/
def padNumber (value : Nat) (len : Nat) : Str :=
  jsPadStart (natDigits value) len '0'

/-- Calendar components a JavaScript `Date` exposes to the formatter
(local civil time). -/
structure JSDate where
  day : Nat
  month : Nat
  year : Nat
  hours : Nat
  minutes : Nat
deriving DecidableEq

/-- Source `formatDate(date, withTime = false)`: `DD/MM/YYYY` or
`DD/MM/YYYY HH:MM`; the year is not padded. -/
def formatDate (d : JSDate) (withTime : Bool) : Str :=
  let day := jsPadStart (natDigits d.day) 2 '0'
  let month := jsPadStart (natDigits (d.month + 1)) 2 '0'
  let year := natDigits d.year
  if withTime then
    let hours := jsPadStart (natDigits d.hours) 2 '0'
    let minutes := jsPadStart (natDigits d.minutes) 2 '0'
    day ++ ['/'] ++ month ++ ['/'] ++ year ++ [' '] ++ hours ++ [':'] ++ minutes
  else
    day ++ ['/'] ++ month ++ ['/'] ++ year

inductive PaymentType
  | CASH
  | CARD
  | BANK
  | OTHER
deriving DecidableEq

/-- String value carried by each `PaymentType` enum member in the source. -/
def PaymentType.code : PaymentType → Str
  | .CASH => ['C']
  | .CARD => ['T']
  | .BANK => ['B']
  | .OTHER => ['A']

inductive VehicleType
  | CAR
  | MOTORCYCLE
  | TRUCK
  | OTHER
deriving DecidableEq

/-- String value carried by each `VehicleType` enum member in the source;
`CAR` and `OTHER` are both `"A"`. -/
def VehicleType.code : VehicleType → Str
  | .CAR => ['A']
  | .MOTORCYCLE => ['M']
  | .TRUCK => ['C']
  | .OTHER => ['A']

inductive DocumentType
  | PASSPORT
  | ID_CARD
  | DRIVERS_LICENSE
  | VISA
  | RESIDENCE_PERMIT
deriving DecidableEq

/-- String value carried by each `DocumentType` enum member in the source;
`PASSPORT` and `DRIVERS_LICENSE` are both `"P"`. -/
def DocumentType.code : DocumentType → Str
  | .PASSPORT => ['P']
  | .ID_CARD => ['C']
  | .DRIVERS_LICENSE => ['P']
  | .VISA => ['V']
  | .RESIDENCE_PERMIT => ['S']

structure Location where
  code : Nat
  name : Option Str
deriving DecidableEq

structure Driver where
  surname : Str
  name : Str
  birthDate : JSDate
  birthPlace : Location
  citizenship : Location
  residencePlace : Option Location
  residenceAddress : Option Str
  documentType : DocumentType
  documentNumber : Str
  documentIssuePlace : Location
  licenseNumber : Str
  licenseIssuePlace : Location
  phone : Option Str
deriving DecidableEq

structure Vehicle where
  vtype : VehicleType
  brand : Str
  model : Str
  plate : Str
  color : Option Str
  hasGPS : Option Bool
  hasEngineBlock : Option Bool
deriving DecidableEq

structure Agency where
  id : Str
  name : Str
  location : Location
  address : Str
  phone : Str
deriving DecidableEq

structure RentalContract where
  id : Str
  createdDate : JSDate
  paymentType : PaymentType
  checkoutDate : JSDate
  checkoutLocation : Location
  checkoutAddress : Str
  checkinDate : JSDate
  checkinLocation : Location
  checkinAddress : Str
  operatorId : Str
  agency : Agency
  vehicle : Vehicle
  mainDriver : Driver
  secondaryDriver : Option Driver
deriving DecidableEq

/-- JavaScript truthiness of an optional boolean flag
(`vehicle.hasGPS ? "1" : "0"`). -/
def flagChar (b : Option Bool) : Str :=
  match b with
  | some true => ['1']
  | _ => ['0']

/-- Source `formatDriver(driver)`: concatenation of the thirteen driver
fields in declared order.  `driver.residenceAddress || ""` and
`driver.phone || ""` are modelled by defaulting the absent option to the
empty string. -/
def formatDriver (d : Driver) : Str :=
  padString d.surname 50 ' '
  ++ padString d.name 30 ' '
  ++ jsPadEnd (formatDate d.birthDate false) 10 ' '
  ++ padNumber d.birthPlace.code 9
  ++ padNumber d.citizenship.code 9
  ++ (match d.residencePlace with
      | some l => padNumber l.code 9
      | none => List.replicate 9 ' ')
  ++ padString (d.residenceAddress.getD []) 150 ' '
  ++ padString d.documentType.code 5 ' '
  ++ padString d.documentNumber 20 ' '
  ++ padNumber d.documentIssuePlace.code 9
  ++ padString d.licenseNumber 20 ' '
  ++ padNumber d.licenseIssuePlace.code 9
  ++ padString (d.phone.getD []) 20 ' '

/-- Source `formatContract(contract)`: contract fields, then the main driver
block, then either the secondary driver block or the literal
`" ".repeat(190)` filler. -/
def formatContract (c : RentalContract) : Str :=
  padString c.id 50 ' '
  ++ jsPadEnd (formatDate c.createdDate true) 16 ' '
  ++ c.paymentType.code
  ++ jsPadEnd (formatDate c.checkoutDate true) 16 ' '
  ++ padNumber c.checkoutLocation.code 9
  ++ padString c.checkoutAddress 150 ' '
  ++ jsPadEnd (formatDate c.checkinDate true) 16 ' '
  ++ padNumber c.checkinLocation.code 9
  ++ padString c.checkinAddress 150 ' '
  ++ padString c.operatorId 50 ' '
  ++ padString c.agency.id 30 ' '
  ++ padString c.agency.name 70 ' '
  ++ padNumber c.agency.location.code 9
  ++ padString c.agency.address 150 ' '
  ++ padString c.agency.phone 20 ' '
  ++ c.vehicle.vtype.code
  ++ padString c.vehicle.brand 50 ' '
  ++ padString c.vehicle.model 100 ' '
  ++ padString c.vehicle.plate 15 ' '
  ++ padString (c.vehicle.color.getD []) 50 ' '
  ++ flagChar c.vehicle.hasGPS
  ++ flagChar c.vehicle.hasEngineBlock
  ++ formatDriver c.mainDriver
  ++ (match c.secondaryDriver with
      | some d => formatDriver d
      | none => List.replicate 190 ' ')

/-- Secondary-driver check of the source validator:
`contract.secondaryDriver && (!surname || !name || !documentNumber)` pushes
one message; an absent secondary driver pushes nothing. -/
def secondaryViolation : Option Driver → List String
  | some d =>
    if d.surname = [] ∨ d.name = [] ∨ d.documentNumber = [] then
      ["Secondary driver must have all required fields or be removed"]
    else []
  | none => []

/-- Source `isValidContractData(contract)`: pushes one fixed message per
violated rule onto an array, every rule checked unconditionally.  JavaScript
falsiness of a string (`!contract.id`) is emptiness of the character list. -/
def isValidContractData (c : RentalContract) : List String :=
  (if c.id = [] ∨ c.id.length > 50 then
    ["Contract ID must be between 1 and 50 characters"] else [])
  ++ (if c.agency.id = [] ∨ c.agency.id.length > 30 then
    ["Agency ID must be between 1 and 30 characters"] else [])
  ++ (if c.checkoutAddress.length < 3 then
    ["Checkout address must be at least 3 characters"] else [])
  ++ (if c.checkinAddress.length < 3 then
    ["Checkin address must be at least 3 characters"] else [])
  ++ (if c.mainDriver.documentNumber.length < 5 then
    ["Document number must be at least 5 characters"] else [])
  ++ (if c.mainDriver.licenseNumber.length < 5 then
    ["License number must be at least 5 characters"] else [])
  ++ (if c.vehicle.plate.length < 3 then
    ["Vehicle plate must be at least 3 characters"] else [])
  ++ secondaryViolation c.secondaryDriver

/-- Standard base64 alphabet, sextet value to character. -/
def b64Alphabet : Str :=
  str "ABCDEFGHIJKLMNOPQRSTUVWXYZabcdefghijklmnopqrstuvwxyz0123456789+/"

/-- Character for one sextet. -/
def b64Char (n : Nat) : Char := b64Alphabet.getD (n % 64) 'A'

/-- RFC 4648 base64 encoding of a byte sequence (bytes taken mod 256),
with trailing `=` padding, as produced by Node `Buffer` base64 output. -/
def base64Encode : List Nat → Str
  | [] => []
  | [a] =>
    [b64Char (a % 256 / 4), b64Char (a % 256 % 4 * 16), '=', '=']
  | [a, b] =>
    [b64Char (a % 256 / 4), b64Char (a % 256 % 4 * 16 + b % 256 / 16),
      b64Char (b % 256 % 16 * 4), '=']
  | a :: b :: c :: rest =>
    b64Char (a % 256 / 4)
      :: b64Char (a % 256 % 4 * 16 + b % 256 / 16)
      :: b64Char (b % 256 % 16 * 4 + c % 256 / 64)
      :: b64Char (c % 256 % 64)
      :: base64Encode rest

/-- Source `encryptAES(token, apiKey)`.  The AES-256-CBC primitive itself
comes from `node:crypto`, outside this repository, and is taken as the
parameter `aesCbc : key -> iv -> plaintext -> ciphertext bytes`; the code
under verification is the key-length guard, the key/IV split
(`substring(0, 32)` and `substring(32, 48)`) and the base64 rendering of the
ciphertext.  The guard `!apiKey || apiKey.length < 48` collapses to the
length test because an empty string has length `0 < 48`. -/
def encryptAES (aesCbc : Str → Str → Str → List Nat)
    (token : Str) (apiKey : Str) : Except String Str :=
  if apiKey.length < 48 then
    Except.error "API Key must be at least 48 characters for AES encryption"
  else
    Except.ok (base64Encode (aesCbc (apiKey.take 32) ((apiKey.take 48).drop 32) token))

/-- Chunk size hard-coded in `batchSendContracts`. -/
def chunkSize : Nat := 100

/-- Fuel-driven worker for the chunking loop; with fuel at least the length
of the list it produces the successive `slice(i, i + chunkSize)` groups. -/
def chunkGo {α : Type} (fuel : Nat) (l : List α) : List (List α) :=
  match fuel, l with
  | 0, _ => []
  | _ + 1, [] => []
  | fuel + 1, x :: xs =>
    ((x :: xs).take chunkSize) :: chunkGo fuel ((x :: xs).drop chunkSize)

/-- Chunking loop of `batchSendContracts`:
`for (i = 0; i < n; i += 100) slice(i, i + 100)`. -/
def chunkContracts {α : Type} (l : List α) : List (List α) :=
  chunkGo l.length l

/-- Component ranges every value read out of a JavaScript `Date` satisfies
(`getDate` and friends return at most two digits, `getFullYear` at most four
for any date of the current era). -/
def wellFormedDate (d : JSDate) : Prop :=
  d.day < 100 ∧ d.month + 1 < 100 ∧ d.year < 10000 ∧ d.hours < 100 ∧ d.minutes < 100

/-- A location code that fits the nine-character numeric slot. -/
def fitsIn9 (l : Location) : Prop := l.code < 10 ^ 9

instance (d : JSDate) : Decidable (wellFormedDate d) := by
  unfold wellFormedDate
  infer_instance

instance (l : Location) : Decidable (fitsIn9 l) := by
  unfold fitsIn9
  infer_instance

/-- An absent residence place, or one whose code fits its slot. -/
def residenceFits : Option Location → Prop
  | some l => fitsIn9 l
  | none => True

instance : (o : Option Location) → Decidable (residenceFits o)
  | some l => inferInstanceAs (Decidable (fitsIn9 l))
  | none => inferInstanceAs (Decidable True)

/-- A driver every numeric field of which fits its declared width. -/
def encodableDriver (d : Driver) : Prop :=
  wellFormedDate d.birthDate ∧ fitsIn9 d.birthPlace ∧ fitsIn9 d.citizenship ∧
  residenceFits d.residencePlace ∧
  fitsIn9 d.documentIssuePlace ∧ fitsIn9 d.licenseIssuePlace

instance (d : Driver) : Decidable (encodableDriver d) := by
  unfold encodableDriver
  infer_instance

/-- An absent secondary driver, or an encodable one. -/
def secondaryEncodable : Option Driver → Prop
  | some d => encodableDriver d
  | none => True

instance : (o : Option Driver) → Decidable (secondaryEncodable o)
  | some d => inferInstanceAs (Decidable (encodableDriver d))
  | none => inferInstanceAs (Decidable True)

/-- A contract every numeric field of which fits its declared width. -/
def encodableContract (c : RentalContract) : Prop :=
  wellFormedDate c.createdDate ∧ wellFormedDate c.checkoutDate ∧
  wellFormedDate c.checkinDate ∧
  fitsIn9 c.checkoutLocation ∧ fitsIn9 c.checkinLocation ∧
  fitsIn9 c.agency.location ∧
  encodableDriver c.mainDriver ∧
  secondaryEncodable c.secondaryDriver

instance (c : RentalContract) : Decidable (encodableContract c) := by
  unfold encodableContract
  infer_instance

/-- Characters the transport accepts for an encrypted token, the regular
expression class `[A-Za-z0-9+/=]`. -/
def isBase64Char (c : Char) : Prop :=
  ('A' ≤ c ∧ c ≤ 'Z') ∨ ('a' ≤ c ∧ c ≤ 'z') ∨ ('0' ≤ c ∧ c ≤ '9') ∨
  c = '+' ∨ c = '/' ∨ c = '='

instance (c : Char) : Decidable (isBase64Char c) := by
  unfold isBase64Char
  infer_instance

/-- Concrete driver mirroring the repository test fixture `createTestDriver`. -/
def testDriver : Driver :=
  { surname := str "Rossi", name := str "Mario",
    birthDate := ⟨15, 5, 1985, 0, 0⟩,
    birthPlace := ⟨123456789, some (str "Roma")⟩,
    citizenship := ⟨100000100, some (str "Italia")⟩,
    residencePlace := none, residenceAddress := none,
    documentType := .ID_CARD, documentNumber := str "AB1234567",
    documentIssuePlace := ⟨123456789, some (str "Roma")⟩,
    licenseNumber := str "RM12345678",
    licenseIssuePlace := ⟨123456789, some (str "Roma")⟩,
    phone := none }

/-- Concrete contract mirroring the repository test fixture
`createTestContract` (no secondary driver). -/
def testContract : RentalContract :=
  { id := str "CONTRACT-001",
    createdDate := ⟨15, 0, 2024, 10, 30⟩,
    paymentType := .CARD,
    checkoutDate := ⟨15, 0, 2024, 11, 0⟩,
    checkoutLocation := ⟨123456789, some (str "Roma Fiumicino")⟩,
    checkoutAddress := str "Via Aeroporto 1",
    checkinDate := ⟨20, 0, 2024, 18, 0⟩,
    checkinLocation := ⟨987654321, some (str "Milano Malpensa")⟩,
    checkinAddress := str "Via Malpensa 2",
    operatorId := str "OP001",
    agency := { id := str "AGENCY001", name := str "Autonoleggio Roma SRL",
                location := ⟨123456789, some (str "Roma")⟩,
                address := str "Via Roma 100", phone := str "+39 06 1234567" },
    vehicle := { vtype := .CAR, brand := str "Fiat", model := str "500",
                 plate := str "AB123CD", color := some (str "Rosso"),
                 hasGPS := some true, hasEngineBlock := some false },
    mainDriver := testDriver,
    secondaryDriver := none }

/-- The same contract with a secondary driver present. -/
def contractWithSecondary : RentalContract :=
  { testContract with secondaryDriver := some testDriver }

/-- The same contract with a checkout location code one digit too wide for
its nine-character slot. -/
def overflowContract : RentalContract :=
  { testContract with checkoutLocation := ⟨10 ^ 9, none⟩ }

/-- The contract with the vehicle type replaced, every other field equal. -/
def vehicleTypeVariant (c : RentalContract) (t : VehicleType) : RentalContract :=
  { c with vehicle := { c.vehicle with vtype := t } }

/-- The contract with the main driver's document type replaced, every other
field equal. -/
def documentTypeVariant (c : RentalContract) (t : DocumentType) : RentalContract :=
  { c with mainDriver := { c.mainDriver with documentType := t } }

/-- Rule for the optional secondary driver, in the spec's words: if present,
surname, name and document number must all be non-empty. -/
def secondaryComplete : Option Driver → Prop
  | some d => d.surname ≠ [] ∧ d.name ≠ [] ∧ d.documentNumber ≠ []
  | none => True

instance : (o : Option Driver) → Decidable (secondaryComplete o)
  | some _ => by unfold secondaryComplete; infer_instance
  | none => by unfold secondaryComplete; infer_instance

/-- The validation rule table exactly as the specification states it, one
fixed message per violated rule, every rule checked independently. -/
def specViolations (c : RentalContract) : List String :=
  (if ¬(1 ≤ c.id.length ∧ c.id.length ≤ 50) then
    ["Contract ID must be between 1 and 50 characters"] else [])
  ++ (if ¬(1 ≤ c.agency.id.length ∧ c.agency.id.length ≤ 30) then
    ["Agency ID must be between 1 and 30 characters"] else [])
  ++ (if ¬(3 ≤ c.checkoutAddress.length) then
    ["Checkout address must be at least 3 characters"] else [])
  ++ (if ¬(3 ≤ c.checkinAddress.length) then
    ["Checkin address must be at least 3 characters"] else [])
  ++ (if ¬(5 ≤ c.mainDriver.documentNumber.length) then
    ["Document number must be at least 5 characters"] else [])
  ++ (if ¬(5 ≤ c.mainDriver.licenseNumber.length) then
    ["License number must be at least 5 characters"] else [])
  ++ (if ¬(3 ≤ c.vehicle.plate.length) then
    ["Vehicle plate must be at least 3 characters"] else [])
  ++ (if ¬secondaryComplete c.secondaryDriver then
    ["Secondary driver must have all required fields or be removed"] else [])

/-- A contract satisfying every rule of the validation table. -/
def validContract (c : RentalContract) : Prop :=
  (1 ≤ c.id.length ∧ c.id.length ≤ 50) ∧
  (1 ≤ c.agency.id.length ∧ c.agency.id.length ≤ 30) ∧
  3 ≤ c.checkoutAddress.length ∧ 3 ≤ c.checkinAddress.length ∧
  5 ≤ c.mainDriver.documentNumber.length ∧
  5 ≤ c.mainDriver.licenseNumber.length ∧
  3 ≤ c.vehicle.plate.length ∧
  secondaryComplete c.secondaryDriver

instance (c : RentalContract) : Decidable (validContract c) := by
  unfold validContract
  infer_instance

/-! ## Helper lemmas about the field codec -/

theorem jsPadEnd_length (s : Str) (n : Nat) (f : Char) :
    (jsPadEnd s n f).length = max n s.length := by
  unfold jsPadEnd
  split
  · omega
  · simp only [List.length_append, List.length_replicate]
    omega

theorem jsPadStart_length (s : Str) (n : Nat) (f : Char) :
    (jsPadStart s n f).length = max n s.length := by
  unfold jsPadStart
  split
  · omega
  · simp only [List.length_append, List.length_replicate]
    omega

theorem padString_length (v : Str) (n : Nat) (f : Char) :
    (padString v n f).length = n := by
  unfold padString
  split
  · simp only [List.length_take]
    omega
  · rw [jsPadEnd_length]
    omega

theorem padNumber_length (v n : Nat) :
    (padNumber v n).length = max n (natDigits v).length := by
  unfold padNumber
  exact jsPadStart_length _ _ _

theorem natDigitsGo_congr :
    ∀ (f₁ f₂ n : Nat), n < f₁ → n < f₂ → natDigitsGo f₁ n = natDigitsGo f₂ n := by
  intro f₁
  induction f₁ with
  | zero => intro f₂ n h _; omega
  | succ f ih =>
    intro f₂ n h₁ h₂
    match f₂, h₂ with
    | g + 1, h₂ =>
      show natDigitsGo (f + 1) n = natDigitsGo (g + 1) n
      simp only [natDigitsGo]
      split
      · rfl
      · rw [ih g (n / 10) (by omega) (by omega)]

theorem natDigits_eq (n : Nat) :
    natDigits n =
      if n < 10 then [digitChar n]
      else natDigits (n / 10) ++ [digitChar (n % 10)] := by
  show natDigitsGo (n + 1) n = _
  rw [show natDigitsGo (n + 1) n =
      (if n < 10 then [digitChar n]
       else natDigitsGo n (n / 10) ++ [digitChar (n % 10)]) from rfl]
  by_cases h : n < 10
  · rw [if_pos h, if_pos h]
  · rw [if_neg h, if_neg h,
      natDigitsGo_congr n (n / 10 + 1) (n / 10)
        (Nat.div_lt_self (by omega) (by norm_num)) (Nat.lt_succ_self _)]
    rfl

theorem natDigits_length_pos (n : Nat) : 1 ≤ (natDigits n).length := by
  rw [natDigits_eq]
  split <;> simp

theorem natDigits_length_le :
    ∀ (k : Nat), ∀ (n : Nat), 0 < k → n < 10 ^ k → (natDigits n).length ≤ k := by
  intro k
  induction k with
  | zero => intro n h _; omega
  | succ k ih =>
    intro n _ hn
    rw [natDigits_eq]
    by_cases h : n < 10
    · rw [if_pos h]; simp
    · rw [if_neg h]
      simp only [List.length_append, List.length_cons, List.length_nil]
      have hk : 0 < k := by
        rcases Nat.eq_zero_or_pos k with h0 | h0
        · subst h0; simp at hn; omega
        · exact h0
      have hdiv : n / 10 < 10 ^ k := by
        rw [Nat.div_lt_iff_lt_mul (by norm_num)]
        calc n < 10 ^ (k + 1) := hn
          _ = 10 ^ k * 10 := by ring
      have := ih (n / 10) hk hdiv
      omega

/-! ## Record composer length lemmas -/

theorem formatDate_date_length (d : JSDate) (h : wellFormedDate d) :
    (formatDate d false).length = 6 + (natDigits d.year).length := by
  obtain ⟨hd, hm, _, _, _⟩ := h
  have h1 := natDigits_length_le 2 d.day (by norm_num) (by norm_num [hd])
  have h2 := natDigits_length_le 2 (d.month + 1) (by norm_num) (by norm_num [hm])
  simp only [formatDate, Bool.false_eq_true, if_false, List.length_append,
    jsPadStart_length, List.length_cons, List.length_nil]
  omega

theorem formatDate_time_length (d : JSDate) (h : wellFormedDate d) :
    (formatDate d true).length = 12 + (natDigits d.year).length := by
  obtain ⟨hd, hm, _, hh, hmin⟩ := h
  have h1 := natDigits_length_le 2 d.day (by norm_num) (by norm_num [hd])
  have h2 := natDigits_length_le 2 (d.month + 1) (by norm_num) (by norm_num [hm])
  have h3 := natDigits_length_le 2 d.hours (by norm_num) (by norm_num [hh])
  have h4 := natDigits_length_le 2 d.minutes (by norm_num) (by norm_num [hmin])
  simp only [formatDate, if_true, List.length_append,
    jsPadStart_length, List.length_cons, List.length_nil]
  omega

theorem formatDriver_length_of_encodable (d : Driver) (h : encodableDriver d) :
    (formatDriver d).length = 350 := by
  obtain ⟨hdate, h1, h2, h3, h4, h5⟩ := h
  have e1 := natDigits_length_le 9 d.birthPlace.code (by norm_num) h1
  have e2 := natDigits_length_le 9 d.citizenship.code (by norm_num) h2
  have e4 := natDigits_length_le 9 d.documentIssuePlace.code (by norm_num) h4
  have e5 := natDigits_length_le 9 d.licenseIssuePlace.code (by norm_num) h5
  have edate : (formatDate d.birthDate false).length ≤ 10 := by
    rw [formatDate_date_length d.birthDate hdate]
    have := natDigits_length_le 4 d.birthDate.year (by norm_num)
      (by norm_num [hdate.2.2.1])
    omega
  unfold formatDriver
  cases hr : d.residencePlace with
  | none =>
    simp only [hr, List.length_append, padString_length, padNumber_length,
      jsPadEnd_length, List.length_replicate]
    omega
  | some l =>
    rw [hr] at h3
    simp only [residenceFits] at h3
    have e3 := natDigits_length_le 9 l.code (by norm_num) h3
    simp only [hr, List.length_append, padString_length, padNumber_length,
      jsPadEnd_length, List.length_replicate]
    omega

theorem paymentCode_length (p : PaymentType) : p.code.length = 1 := by
  cases p <;> rfl

theorem vehicleCode_length (v : VehicleType) : v.code.length = 1 := by
  cases v <;> rfl

theorem documentCode_length (t : DocumentType) : t.code.length = 1 := by
  cases t <;> rfl

theorem flagChar_length (b : Option Bool) : (flagChar b).length = 1 := by
  cases b with
  | none => rfl
  | some x => cases x <;> rfl

theorem formatContract_length_of_encodable (c : RentalContract)
    (h : encodableContract c) :
    (formatContract c).length =
      1314 + (match c.secondaryDriver with | some _ => 350 | none => 190) := by
  obtain ⟨hd1, hd2, hd3, hl1, hl2, hl3, hmain, hsec⟩ := h
  have e1 := natDigits_length_le 9 c.checkoutLocation.code (by norm_num) hl1
  have e2 := natDigits_length_le 9 c.checkinLocation.code (by norm_num) hl2
  have e3 := natDigits_length_le 9 c.agency.location.code (by norm_num) hl3
  have t1 : (formatDate c.createdDate true).length ≤ 16 := by
    rw [formatDate_time_length c.createdDate hd1]
    have := natDigits_length_le 4 c.createdDate.year (by norm_num)
      (by norm_num [hd1.2.2.1])
    omega
  have t2 : (formatDate c.checkoutDate true).length ≤ 16 := by
    rw [formatDate_time_length c.checkoutDate hd2]
    have := natDigits_length_le 4 c.checkoutDate.year (by norm_num)
      (by norm_num [hd2.2.2.1])
    omega
  have t3 : (formatDate c.checkinDate true).length ≤ 16 := by
    rw [formatDate_time_length c.checkinDate hd3]
    have := natDigits_length_le 4 c.checkinDate.year (by norm_num)
      (by norm_num [hd3.2.2.1])
    omega
  have hm := formatDriver_length_of_encodable c.mainDriver hmain
  unfold formatContract
  cases hs : c.secondaryDriver with
  | none =>
    simp only [hs, List.length_append, padString_length, padNumber_length,
      jsPadEnd_length, List.length_replicate, paymentCode_length,
      vehicleCode_length, flagChar_length, hm]
    omega
  | some d =>
    rw [hs] at hsec
    simp only [secondaryEncodable] at hsec
    have hd := formatDriver_length_of_encodable d hsec
    simp only [hs, List.length_append, padString_length, padNumber_length,
      jsPadEnd_length, List.length_replicate, paymentCode_length,
      vehicleCode_length, flagChar_length, hm, hd]
    omega

/-! ## Chunking lemmas -/

theorem chunkGo_nil {α : Type} (f : Nat) : chunkGo f ([] : List α) = [] := by
  cases f <;> rfl

theorem chunkGo_congr {α : Type} :
    ∀ (f₁ f₂ : Nat) (l : List α),
      l.length ≤ f₁ → l.length ≤ f₂ → chunkGo f₁ l = chunkGo f₂ l := by
  intro f₁
  induction f₁ with
  | zero =>
    intro f₂ l h₁ _
    have hl : l = [] := List.eq_nil_of_length_eq_zero (Nat.le_zero.mp h₁)
    subst hl
    rw [chunkGo_nil, chunkGo_nil]
  | succ f ih =>
    intro f₂ l h₁ h₂
    cases l with
    | nil => rw [chunkGo_nil, chunkGo_nil]
    | cons x xs =>
      match f₂, h₂ with
      | g + 1, h₂ =>
        show chunkGo (f + 1) (x :: xs) = chunkGo (g + 1) (x :: xs)
        simp only [chunkGo]
        simp only [List.length_cons] at h₁ h₂
        rw [ih g ((x :: xs).drop chunkSize)
          (by simp only [List.length_drop, List.length_cons, chunkSize]; omega)
          (by simp only [List.length_drop, List.length_cons, chunkSize]; omega)]

theorem chunkContracts_cons {α : Type} (x : α) (xs : List α) :
    chunkContracts (x :: xs) =
      (x :: xs).take chunkSize :: chunkContracts ((x :: xs).drop chunkSize) := by
  show chunkGo (x :: xs).length (x :: xs) = _
  rw [show chunkGo (x :: xs).length (x :: xs) =
      (x :: xs).take chunkSize :: chunkGo xs.length ((x :: xs).drop chunkSize) from rfl]
  rw [chunkGo_congr xs.length ((x :: xs).drop chunkSize).length ((x :: xs).drop chunkSize)
    (by simp only [List.length_drop, List.length_cons, chunkSize]; omega) (Nat.le_refl _)]
  rfl

theorem chunkContracts_flatten {α : Type} (l : List α) :
    (chunkContracts l).flatten = l := by
  suffices h : ∀ (n : Nat) (l : List α), l.length ≤ n → (chunkContracts l).flatten = l from
    h l.length l (Nat.le_refl _)
  intro n
  induction n with
  | zero =>
    intro l h
    have hl : l = [] := List.eq_nil_of_length_eq_zero (Nat.le_zero.mp h)
    subst hl
    rfl
  | succ n ih =>
    intro l h
    cases l with
    | nil => rfl
    | cons x xs =>
      rw [chunkContracts_cons, List.flatten_cons,
        ih ((x :: xs).drop chunkSize)
          (by simp only [List.length_drop, List.length_cons, chunkSize]
              simp only [List.length_cons] at h
              omega),
        List.take_append_drop]

theorem chunkContracts_length_le {α : Type} (l : List α) :
    ∀ chunk ∈ chunkContracts l, chunk.length ≤ chunkSize := by
  suffices h : ∀ (n : Nat) (l : List α), l.length ≤ n →
      ∀ chunk ∈ chunkContracts l, chunk.length ≤ chunkSize from
    h l.length l (Nat.le_refl _)
  intro n
  induction n with
  | zero =>
    intro l h chunk hc
    have hl : l = [] := List.eq_nil_of_length_eq_zero (Nat.le_zero.mp h)
    subst hl
    simp [chunkContracts, chunkGo] at hc
  | succ n ih =>
    intro l h chunk hc
    cases l with
    | nil => simp [chunkContracts, chunkGo] at hc
    | cons x xs =>
      rw [chunkContracts_cons] at hc
      rcases List.mem_cons.mp hc with rfl | hmem
      · simp only [List.length_take]
        omega
      · exact ih ((x :: xs).drop chunkSize)
          (by simp only [List.length_drop, List.length_cons, chunkSize]
              simp only [List.length_cons] at h
              omega) chunk hmem

theorem chunkContracts_ne_nil {α : Type} (x : α) (xs : List α) :
    chunkContracts (x :: xs) ≠ [] := by
  rw [chunkContracts_cons]
  simp

theorem chunkContracts_dropLast_length {α : Type} (l : List α) :
    ∀ chunk ∈ (chunkContracts l).dropLast, chunk.length = chunkSize := by
  suffices h : ∀ (n : Nat) (l : List α), l.length ≤ n →
      ∀ chunk ∈ (chunkContracts l).dropLast, chunk.length = chunkSize from
    h l.length l (Nat.le_refl _)
  intro n
  induction n with
  | zero =>
    intro l h chunk hc
    have hl : l = [] := List.eq_nil_of_length_eq_zero (Nat.le_zero.mp h)
    subst hl
    simp [chunkContracts, chunkGo] at hc
  | succ n ih =>
    intro l h chunk hc
    cases l with
    | nil => simp [chunkContracts, chunkGo] at hc
    | cons x xs =>
      rw [chunkContracts_cons] at hc
      by_cases hd : (x :: xs).drop chunkSize = []
      · rw [hd] at hc
        simp [chunkContracts, chunkGo] at hc
      · cases hrest : (x :: xs).drop chunkSize with
        | nil => exact absurd hrest hd
        | cons y ys =>
          rw [hrest, List.dropLast_cons_of_ne_nil (chunkContracts_ne_nil y ys)] at hc
          rcases List.mem_cons.mp hc with rfl | hmem
          · have hlen : 0 < ((x :: xs).drop chunkSize).length := by
              rw [hrest]; simp
            simp only [List.length_drop, List.length_cons] at hlen
            simp only [List.length_take, List.length_cons]
            simp only [chunkSize] at hlen ⊢
            omega
          · have := ih ((x :: xs).drop chunkSize)
              (by simp only [List.length_drop, List.length_cons, chunkSize]
                  simp only [List.length_cons] at h
                  omega) chunk
            rw [hrest] at this
            exact this hmem

/-! ## Base64 lemmas -/

theorem b64Char_isBase64 (n : Nat) : isBase64Char (b64Char n) := by
  have h : ∀ j, j < 64 → isBase64Char (b64Alphabet.getD j 'A') := by decide
  exact h (n % 64) (Nat.mod_lt _ (by norm_num))

theorem base64Encode_mem (bs : List Nat) :
    ∀ ch ∈ base64Encode bs, isBase64Char ch := by
  suffices h : ∀ (n : Nat) (bs : List Nat), bs.length ≤ n →
      ∀ ch ∈ base64Encode bs, isBase64Char ch from
    h bs.length bs (Nat.le_refl _)
  intro n
  induction n with
  | zero =>
    intro bs h ch hch
    have hl : bs = [] := List.eq_nil_of_length_eq_zero (Nat.le_zero.mp h)
    subst hl
    simp [base64Encode] at hch
  | succ n ih =>
    intro bs h ch hch
    rcases bs with _ | ⟨a, _ | ⟨b, _ | ⟨c, rest⟩⟩⟩
    · simp [base64Encode] at hch
    · simp only [base64Encode, List.mem_cons, List.not_mem_nil, or_false] at hch
      rcases hch with rfl | rfl | rfl | rfl
      · exact b64Char_isBase64 _
      · exact b64Char_isBase64 _
      · decide
      · decide
    · simp only [base64Encode, List.mem_cons, List.not_mem_nil, or_false] at hch
      rcases hch with rfl | rfl | rfl | rfl
      · exact b64Char_isBase64 _
      · exact b64Char_isBase64 _
      · exact b64Char_isBase64 _
      · decide
    · simp only [base64Encode, List.mem_cons] at hch
      rcases hch with rfl | rfl | rfl | rfl | hmem
      · exact b64Char_isBase64 _
      · exact b64Char_isBase64 _
      · exact b64Char_isBase64 _
      · exact b64Char_isBase64 _
      · refine ih rest ?_ ch hmem
        simp only [List.length_cons] at h
        omega

theorem base64Encode_ne_nil (bs : List Nat) (h : bs ≠ []) :
    base64Encode bs ≠ [] := by
  rcases bs with _ | ⟨a, _ | ⟨b, _ | ⟨c, rest⟩⟩⟩
  · exact absurd rfl h
  · simp [base64Encode]
  · simp [base64Encode]
  · simp [base64Encode]

/-! ## Validation gate lemmas -/

theorem secondaryViolation_eq (o : Option Driver) :
    secondaryViolation o =
      if ¬secondaryComplete o then
        ["Secondary driver must have all required fields or be removed"]
      else [] := by
  cases o with
  | none => simp [secondaryViolation, secondaryComplete]
  | some d =>
    show (if d.surname = [] ∨ d.name = [] ∨ d.documentNumber = [] then
        ["Secondary driver must have all required fields or be removed"]
      else []) = _
    apply if_congr _ rfl rfl
    simp only [secondaryComplete]
    tauto

theorem isValid_eq_specViolations (c : RentalContract) :
    isValidContractData c = specViolations c := by
  have e1 : (if c.id = [] ∨ c.id.length > 50 then
        ["Contract ID must be between 1 and 50 characters"] else ([] : List String))
      = (if ¬(1 ≤ c.id.length ∧ c.id.length ≤ 50) then
        ["Contract ID must be between 1 and 50 characters"] else []) := by
    apply if_congr _ rfl rfl
    rw [← List.length_eq_zero]
    omega
  have e2 : (if c.agency.id = [] ∨ c.agency.id.length > 30 then
        ["Agency ID must be between 1 and 30 characters"] else ([] : List String))
      = (if ¬(1 ≤ c.agency.id.length ∧ c.agency.id.length ≤ 30) then
        ["Agency ID must be between 1 and 30 characters"] else []) := by
    apply if_congr _ rfl rfl
    rw [← List.length_eq_zero]
    omega
  have e3 : (if c.checkoutAddress.length < 3 then
        ["Checkout address must be at least 3 characters"] else ([] : List String))
      = (if ¬(3 ≤ c.checkoutAddress.length) then
        ["Checkout address must be at least 3 characters"] else []) := by
    apply if_congr _ rfl rfl
    omega
  have e4 : (if c.checkinAddress.length < 3 then
        ["Checkin address must be at least 3 characters"] else ([] : List String))
      = (if ¬(3 ≤ c.checkinAddress.length) then
        ["Checkin address must be at least 3 characters"] else []) := by
    apply if_congr _ rfl rfl
    omega
  have e5 : (if c.mainDriver.documentNumber.length < 5 then
        ["Document number must be at least 5 characters"] else ([] : List String))
      = (if ¬(5 ≤ c.mainDriver.documentNumber.length) then
        ["Document number must be at least 5 characters"] else []) := by
    apply if_congr _ rfl rfl
    omega
  have e6 : (if c.mainDriver.licenseNumber.length < 5 then
        ["License number must be at least 5 characters"] else ([] : List String))
      = (if ¬(5 ≤ c.mainDriver.licenseNumber.length) then
        ["License number must be at least 5 characters"] else []) := by
    apply if_congr _ rfl rfl
    omega
  have e7 : (if c.vehicle.plate.length < 3 then
        ["Vehicle plate must be at least 3 characters"] else ([] : List String))
      = (if ¬(3 ≤ c.vehicle.plate.length) then
        ["Vehicle plate must be at least 3 characters"] else []) := by
    apply if_congr _ rfl rfl
    omega
  unfold isValidContractData specViolations
  rw [e1, e2, e3, e4, e5, e6, e7, secondaryViolation_eq]

theorem ite_singleton_eq_nil (p : Prop) [inst : Decidable p] (m : String) :
    ((if p then [m] else []) = []) = ¬p := by
  rw [eq_iff_iff]
  constructor
  · intro h hp
    rw [if_pos hp] at h
    exact absurd h (by simp)
  · intro hnp
    rw [if_neg hnp]

theorem specViolations_nil_iff (c : RentalContract) :
    specViolations c = [] ↔ validContract c := by
  unfold specViolations validContract
  simp only [List.append_eq_nil, ite_singleton_eq_nil, not_not]
  tauto

/-! ## Claim theorems -/

set_option maxRecDepth 80000

/-- C1: the length of `formatContract`'s output is claimed to be one constant
across the secondary-driver-present and secondary-driver-absent cases, with
the filler exactly as wide as a driver block.  The code violates this: a
driver block is 350 characters while the absent-secondary filler is
`" ".repeat(190)`, so the two cases measure 1504 and 1664 characters. -/
theorem c1_record_length_depends_on_secondary_driver :
    (formatDriver testDriver).length = 350
    ∧ (formatContract contractWithSecondary).length = 1664
    ∧ (formatContract testContract).length = 1504
    ∧ contractWithSecondary = { testContract with secondaryDriver := some testDriver }
    ∧ (formatContract testContract).length ≠ (formatContract contractWithSecondary).length := by
  have h1 : (formatDriver testDriver).length = 350 :=
    formatDriver_length_of_encodable testDriver (by decide)
  have h2 : (formatContract contractWithSecondary).length = 1664 :=
    formatContract_length_of_encodable contractWithSecondary (by decide)
  have h3 : (formatContract testContract).length = 1504 :=
    formatContract_length_of_encodable testContract (by decide)
  refine ⟨h1, h2, h3, rfl, ?_⟩
  rw [h2, h3]
  omega

/-- C2 counterexample: `formatDriver` output length is not constant for every
driver value — populating the optional residence place with a location code
of ten digits lengthens the block from 350 to 351 characters. -/
theorem c2_optional_field_changes_block_length :
    (formatDriver { testDriver with residencePlace := some ⟨10 ^ 9, none⟩ }).length = 351
    ∧ (formatDriver { testDriver with residencePlace := none }).length = 350
    ∧ (formatDriver { testDriver with residencePlace := some ⟨10 ^ 9, none⟩ }).length
        ≠ (formatDriver { testDriver with residencePlace := none }).length := by
  have ha : (formatDriver
      { testDriver with residencePlace := some ⟨10 ^ 9, none⟩ }).length = 351 := by
    decide
  have hb : (formatDriver { testDriver with residencePlace := none }).length = 350 := by
    decide
  refine ⟨ha, hb, ?_⟩
  rw [ha, hb]
  omega

/-- C2 (amended): for every driver all of whose numeric location codes fit
their nine-character slots and whose birth date has in-range calendar
components, `formatDriver` returns exactly 350 characters, regardless of
which optional fields are populated. -/
theorem c2_driver_block_constant_length (d : Driver) (h : encodableDriver d) :
    (formatDriver d).length = 350 :=
  formatDriver_length_of_encodable d h

theorem c2_driver_block_constant_length_witness :
    encodableDriver testDriver ∧ (formatDriver testDriver).length = 350 :=
  ⟨by decide, c2_driver_block_constant_length testDriver (by decide)⟩

/-- C3: `padString` right-pads with the fill character up to the width and
truncates to exactly the width when the value is longer, the width measured
in characters; in particular
`padString "test" 10 = "test      "` and `padString "hello world" 5 = "hello"`. -/
theorem c3_encode_text_pads_and_truncates (value : Str) (width : Nat) (fill : Char) :
    (padString value width fill).length = width
    ∧ padString value width fill =
        (if value.length ≤ width then value ++ List.replicate (width - value.length) fill
         else value.take width)
    ∧ padString (str "test") 10 ' ' = str "test      "
    ∧ padString (str "hello world") 5 ' ' = str "hello"
    ∧ (str "città").length = 5
    ∧ padString (str "città") 7 ' ' = str "città  " := by
  refine ⟨padString_length value width fill, ?_, by decide, by decide, by decide, by decide⟩
  unfold padString jsPadEnd
  by_cases h1 : value.length > width
  · rw [if_pos h1, if_neg (by omega)]
  · rw [if_neg h1]
    by_cases h2 : width ≤ value.length
    · rw [if_pos h2, if_pos (by omega)]
      have hw : width - value.length = 0 := by omega
      rw [hw]
      simp
    · rw [if_neg h2, if_pos (by omega)]

/-- C4: `padNumber` left-pads the decimal representation with zeros to the
width and returns it unchanged — longer than the width — when the decimal
representation overflows; in particular `padNumber 42 5 = "00042"` and
`padNumber 123456 5 = "123456"`. -/
theorem c4_encode_numeric_code_pads_never_truncates (value width : Nat) :
    (padNumber value width).length = max width (natDigits value).length
    ∧ padNumber value width =
        (if (natDigits value).length ≤ width then
          List.replicate (width - (natDigits value).length) '0' ++ natDigits value
         else natDigits value)
    ∧ padNumber 42 5 = str "00042"
    ∧ padNumber 123456 5 = str "123456"
    ∧ (padNumber 123456 5).length = 6 := by
  refine ⟨padNumber_length value width, ?_, by decide, by decide, by decide⟩
  unfold padNumber jsPadStart
  by_cases h1 : width ≤ (natDigits value).length
  · rw [if_pos h1]
    by_cases h2 : (natDigits value).length ≤ width
    · rw [if_pos h2]
      have hw : width - (natDigits value).length = 0 := by omega
      rw [hw]
      simp
    · rw [if_neg h2]
  · rw [if_neg h1, if_pos (by omega)]

/-- C5: the spec requires composition to abort on a numeric-code overflow;
the code instead silently emits a corrupt record.  With a ten-digit checkout
location code, `formatContract` returns a 1505-character record (one longer
than the 1504 of the same contract with a fitting code), shifting every
subsequent field, and no error value exists anywhere in the formatter. -/
theorem c5_numeric_overflow_silently_emitted :
    (formatContract overflowContract).length = 1505
    ∧ (formatContract testContract).length = 1504
    ∧ padNumber overflowContract.checkoutLocation.code 9
        = natDigits overflowContract.checkoutLocation.code
    ∧ (padNumber overflowContract.checkoutLocation.code 9).length = 10 := by
  refine ⟨?_, formatContract_length_of_encodable testContract (by decide),
    by decide, by decide⟩
  unfold formatContract
  simp only [List.length_append, padString_length, padNumber_length,
    jsPadEnd_length, List.length_replicate, paymentCode_length,
    vehicleCode_length, flagChar_length]
  decide

/-- C6: `isValidContractData` is total, checks every rule of the table
independently, and pushes exactly the one fixed message of each violated
rule: its output coincides with the specification's rule table
(`specViolations`) on every contract, and is empty exactly on valid
contracts. -/
theorem c6_validate_matches_rule_table (c : RentalContract) :
    isValidContractData c = specViolations c
    ∧ (isValidContractData c = [] ↔ validContract c) := by
  refine ⟨isValid_eq_specViolations c, ?_⟩
  rw [isValid_eq_specViolations c]
  exact specViolations_nil_iff c

theorem c6_validate_matches_rule_table_witness :
    isValidContractData testContract = []
    ∧ "Contract ID must be between 1 and 50 characters"
        ∈ isValidContractData { testContract with id := [] } := by
  constructor
  · exact (c6_validate_matches_rule_table testContract).2.mpr (by decide)
  · rw [(c6_validate_matches_rule_table { testContract with id := [] }).1]
    decide

/-- C7: `encryptAES` fails with the key-material error for key material
shorter than 48 characters, and for key material of at least 48 characters
returns the base64 rendering of the ciphertext produced from the first 32
characters (key) and the next 16 (IV); every output character lies in the
class `[A-Za-z0-9+/=]` and the output is non-empty. -/
theorem c7_encrypt_for_transport
    (aesCbc : Str → Str → Str → List Nat) (token apiKey : Str)
    (hcipher : ∀ k iv t, aesCbc k iv t ≠ []) :
    (apiKey.length < 48 →
      encryptAES aesCbc token apiKey =
        Except.error "API Key must be at least 48 characters for AES encryption")
    ∧ (48 ≤ apiKey.length →
        encryptAES aesCbc token apiKey =
          Except.ok (base64Encode
            (aesCbc (apiKey.take 32) ((apiKey.take 48).drop 32) token))
        ∧ ∀ out, encryptAES aesCbc token apiKey = Except.ok out →
            out ≠ [] ∧ ∀ ch ∈ out, isBase64Char ch) := by
  constructor
  · intro h
    unfold encryptAES
    rw [if_pos h]
  · intro h
    have heq : encryptAES aesCbc token apiKey =
        Except.ok (base64Encode
          (aesCbc (apiKey.take 32) ((apiKey.take 48).drop 32) token)) := by
      unfold encryptAES
      rw [if_neg (by omega)]
    refine ⟨heq, ?_⟩
    intro out hout
    rw [heq] at hout
    injection hout with hbody
    subst hbody
    exact ⟨base64Encode_ne_nil _ (hcipher _ _ _), base64Encode_mem _⟩

theorem c7_encrypt_for_transport_witness :
    ((List.replicate 47 'a').length < 48
      ∧ encryptAES (fun _ _ _ => [1, 2, 3]) (str "token") (List.replicate 47 'a')
          = Except.error "API Key must be at least 48 characters for AES encryption")
    ∧ (48 ≤ (List.replicate 48 'a').length
      ∧ ∃ out, encryptAES (fun _ _ _ => [1, 2, 3]) (str "token") (List.replicate 48 'a')
            = Except.ok out ∧ out ≠ [] ∧ ∀ ch ∈ out, isBase64Char ch) := by
  have hc : ∀ (k iv t : Str), (fun (_ _ _ : Str) => [1, 2, 3]) k iv t ≠ ([] : List Nat) := by
    intro k iv t
    simp
  constructor
  · exact ⟨by decide,
      (c7_encrypt_for_transport _ (str "token") (List.replicate 47 'a') hc).1 (by decide)⟩
  · refine ⟨by decide, ?_⟩
    obtain ⟨heq, hall⟩ :=
      (c7_encrypt_for_transport _ (str "token") (List.replicate 48 'a') hc).2 (by decide)
    obtain ⟨hne, hchars⟩ := hall _ heq
    exact ⟨_, heq, hne, hchars⟩

/-- C8: the chunking of `batchSendContracts` partitions any contract list
into order-preserving slices of at most 100 elements, all but the final
slice exactly 100, whose concatenation is the original list; a 250-element
list yields slices of lengths 100, 100 and 50. -/
theorem c8_chunking :
    (∀ (α : Type) (l : List α),
        (chunkContracts l).flatten = l
      ∧ (∀ chunk ∈ chunkContracts l, chunk.length ≤ 100)
      ∧ (∀ chunk ∈ (chunkContracts l).dropLast, chunk.length = 100))
    ∧ (chunkContracts (List.range 250)).map List.length = [100, 100, 50] := by
  refine ⟨fun α l => ⟨chunkContracts_flatten l, chunkContracts_length_le l,
    chunkContracts_dropLast_length l⟩, by decide⟩

theorem c8_chunking_witness :
    (chunkContracts (List.range 250)).flatten = List.range 250
    ∧ (List.range 250).take 100 ∈ chunkContracts (List.range 250)
    ∧ ((List.range 250).take 100).length ≤ 100 := by
  refine ⟨(c8_chunking.1 Nat (List.range 250)).1, by decide, ?_⟩
  exact (c8_chunking.1 Nat (List.range 250)).2.1 _ (by decide)

/-- C10: the record encoding is not injective on enum inputs: contracts that
differ only in the vehicle type (`CAR` vs `OTHER`, both encoded `"A"`) or
only in the main driver's document type (`PASSPORT` vs `DRIVERS_LICENSE`,
both encoded `"P"`) produce identical records. -/
theorem c10_record_encoding_not_injective :
    formatContract (vehicleTypeVariant testContract VehicleType.CAR)
        = formatContract (vehicleTypeVariant testContract VehicleType.OTHER)
    ∧ vehicleTypeVariant testContract VehicleType.CAR
        ≠ vehicleTypeVariant testContract VehicleType.OTHER
    ∧ (vehicleTypeVariant testContract VehicleType.CAR).vehicle.vtype = VehicleType.CAR
    ∧ (vehicleTypeVariant testContract VehicleType.OTHER).vehicle.vtype = VehicleType.OTHER
    ∧ formatContract (documentTypeVariant testContract DocumentType.PASSPORT)
        = formatContract (documentTypeVariant testContract DocumentType.DRIVERS_LICENSE)
    ∧ documentTypeVariant testContract DocumentType.PASSPORT
        ≠ documentTypeVariant testContract DocumentType.DRIVERS_LICENSE
    ∧ VehicleType.code VehicleType.CAR = VehicleType.code VehicleType.OTHER
    ∧ DocumentType.code DocumentType.PASSPORT
        = DocumentType.code DocumentType.DRIVERS_LICENSE := by
  exact ⟨rfl, by decide, rfl, rfl, rfl, by decide, rfl, rfl⟩

end Cargos
